import Mathlib

/-
Verification of the key-value storage layers (database-layering repository).

The definitions below are shallow embeddings of the Python sources:
  - src/l10-enterprise-grade/app/{rate_limiter,circuit_breaker,cache,database,main}.py
  - src/l4-db-sharding/app/sharding.py
  - src/l7-cqrs/app/projector.py
  - src/l9-global-distributed/app/main.py (with geo_router.py, regional_db.py)
  - src/l6-write-buffering/app/{queue,worker}.py
Machine integers are modelled as Nat/Int with explicit masking where overflow
matters; exceptions are modelled as Except/Option values; mutable state is
passed explicitly.  Wall-clock time (time.time(), CURRENT_TIMESTAMP) is an
explicit Int parameter in whole seconds.
-/

set_option maxRecDepth 20000

namespace KV

/-! ## MD5 (hashlib.md5), used by the shard routers

Both src/l4-db-sharding/app/sharding.py (get_shard_id) and
src/l10-enterprise-grade/app/database.py (get_shard_for_key) compute
`int(hashlib.md5(key.encode()).hexdigest(), 16)`.  hashlib.md5 is an external
collaborator (Python standard library); it is embedded here in full (RFC 1321)
so that the router is a closed executable function of the key. -/

def mask32 : Nat := 4294967295

def rotl32 (x n : Nat) : Nat := ((x <<< n) ||| (x >>> (32 - n))) &&& mask32

/-- Round constants K[i] = floor(abs(sin(i+1)) * 2^32). -/
def md5K : List Nat :=
  [0xd76aa478, 0xe8c7b756, 0x242070db, 0xc1bdceee, 0xf57c0faf, 0x4787c62a,
   0xa8304613, 0xfd469501, 0x698098d8, 0x8b44f7af, 0xffff5bb1, 0x895cd7be,
   0x6b901122, 0xfd987193, 0xa679438e, 0x49b40821, 0xf61e2562, 0xc040b340,
   0x265e5a51, 0xe9b6c7aa, 0xd62f105d, 0x02441453, 0xd8a1e681, 0xe7d3fbc8,
   0x21e1cde6, 0xc33707d6, 0xf4d50d87, 0x455a14ed, 0xa9e3e905, 0xfcefa3f8,
   0x676f02d9, 0x8d2a4c8a, 0xfffa3942, 0x8771f681, 0x6d9d6122, 0xfde5380c,
   0xa4beea44, 0x4bdecfa9, 0xf6bb4b60, 0xbebfbc70, 0x289b7ec6, 0xeaa127fa,
   0xd4ef3085, 0x04881d05, 0xd9d4d039, 0xe6db99e5, 0x1fa27cf8, 0xc4ac5665,
   0xf4292244, 0x432aff97, 0xab9423a7, 0xfc93a039, 0x655b59c3, 0x8f0ccc92,
   0xffeff47d, 0x85845dd1, 0x6fa87e4f, 0xfe2ce6e0, 0xa3014314, 0x4e0811a1,
   0xf7537e82, 0xbd3af235, 0x2ad7d2bb, 0xeb86d391]

/-- Per-round left-rotation amounts. -/
def md5S : List Nat :=
  [7, 12, 17, 22, 7, 12, 17, 22, 7, 12, 17, 22, 7, 12, 17, 22,
   5, 9, 14, 20, 5, 9, 14, 20, 5, 9, 14, 20, 5, 9, 14, 20,
   4, 11, 16, 23, 4, 11, 16, 23, 4, 11, 16, 23, 4, 11, 16, 23,
   6, 10, 15, 21, 6, 10, 15, 21, 6, 10, 15, 21, 6, 10, 15, 21]

/-- Nonlinear mixing function of round i. -/
def md5F (i b c d : Nat) : Nat :=
  if i < 16 then (b &&& c) ||| ((b ^^^ mask32) &&& d)
  else if i < 32 then (d &&& b) ||| ((d ^^^ mask32) &&& c)
  else if i < 48 then b ^^^ c ^^^ d
  else c ^^^ (b ||| (d ^^^ mask32))

/-- Message-word index used in round i. -/
def md5G (i : Nat) : Nat :=
  if i < 16 then i
  else if i < 32 then (5 * i + 1) % 16
  else if i < 48 then (3 * i + 5) % 16
  else (7 * i) % 16

/-- One of the 64 operations of a block: state (a,b,c,d), message words M. -/
def md5Round (M : List Nat) (st : Nat × Nat × Nat × Nat) (i : Nat) :
    Nat × Nat × Nat × Nat :=
  let a := st.1
  let b := st.2.1
  let c := st.2.2.1
  let d := st.2.2.2
  let f := (md5F i b c d + a + md5K.getD i 0 + M.getD (md5G i) 0) &&& mask32
  (d, (b + rotl32 f (md5S.getD i 0)) &&& mask32, b, c)

/-- Process one 16-word block and add the result into the running state. -/
def md5Block (st0 : Nat × Nat × Nat × Nat) (M : List Nat) :
    Nat × Nat × Nat × Nat :=
  let r := (List.range 64).foldl (md5Round M) st0
  ((st0.1 + r.1) &&& mask32, (st0.2.1 + r.2.1) &&& mask32,
   (st0.2.2.1 + r.2.2.1) &&& mask32, (st0.2.2.2 + r.2.2.2) &&& mask32)

/-- Little-endian 32-bit word number j of a 64-byte block. -/
def leWord (block : List Nat) (j : Nat) : Nat :=
  block.getD (4 * j) 0 + 256 * block.getD (4 * j + 1) 0 +
    65536 * block.getD (4 * j + 2) 0 + 16777216 * block.getD (4 * j + 3) 0

/-- Append 0x80, zero bytes to 56 mod 64, then the bit length as 64-bit LE. -/
def md5Pad (msg : List Nat) : List Nat :=
  let len := msg.length
  msg ++ [128] ++ List.replicate ((119 - len % 64) % 64) 0 ++
    (List.range 8).map (fun j => ((8 * len) >>> (8 * j)) % 256)

/-- Split the padded message into blocks of 16 little-endian words. -/
def md5Words (padded : List Nat) : List (List Nat) :=
  (List.range (padded.length / 64)).map
    (fun bl => (List.range 16).map (fun j => leWord ((padded.drop (64 * bl)).take 64) j))

def md5Init : Nat × Nat × Nat × Nat :=
  (0x67452301, 0xefcdab89, 0x98badcfe, 0x10325476)

def wordLEBytes (w : Nat) : List Nat :=
  [w % 256, (w >>> 8) % 256, (w >>> 16) % 256, (w >>> 24) % 256]

/-- The 16 digest bytes of a byte message. -/
def md5Digest (msg : List Nat) : List Nat :=
  let st := (md5Words (md5Pad msg)).foldl md5Block md5Init
  wordLEBytes st.1 ++ wordLEBytes st.2.1 ++ wordLEBytes st.2.2.1 ++
    wordLEBytes st.2.2.2

/-- UTF-8 encoding of one character (str.encode()). -/
def utf8Char (c : Char) : List Nat :=
  let n := c.toNat
  if n < 128 then [n]
  else if n < 2048 then [192 ||| (n >>> 6), 128 ||| (n &&& 63)]
  else if n < 65536 then
    [224 ||| (n >>> 12), 128 ||| ((n >>> 6) &&& 63), 128 ||| (n &&& 63)]
  else
    [240 ||| (n >>> 18), 128 ||| ((n >>> 12) &&& 63), 128 ||| ((n >>> 6) &&& 63),
     128 ||| (n &&& 63)]

def utf8Bytes (s : String) : List Nat := s.data.flatMap utf8Char

/-- Value of int(hashlib.md5(key.encode()).hexdigest(), 16): the 16 digest
bytes read as a big-endian integer. -/
def md5Nat (key : String) : Nat :=
  (md5Digest (utf8Bytes key)).foldl (fun acc b => acc * 256 + b) 0

/-! ## Shard / region router

src/l4-db-sharding/app/sharding.py, get_shard_id (lines 4-12) and
src/l10-enterprise-grade/app/database.py, get_shard_for_key (lines 29-33). -/

/-- Per-process mutable environment: everything that can differ between two
processes or between two runs of the same process (for Python this includes
the per-process string-hash randomization seed that the builtin hash() would
use, and the global pool/cache registries).  The routers below receive it but
-- exactly as in the source, which consults nothing mutable -- never read it. -/
structure ProcessState where
  hashSeed : Nat
  deriving Repr, DecidableEq

/-- get_shard_id from l4 sharding.py: md5 of the key modulo num_shards. -/
def get_shard_id (key : String) (num_shards : Nat) : Nat :=
  md5Nat key % num_shards

/-- get_shard_id as executed inside a process with state ps; the body is the
source's body and does not consult ps. -/
def get_shard_id_in (_ps : ProcessState) (key : String) (num_shards : Nat) : Nat :=
  get_shard_id key num_shards

/-- SHARDS.keys() of src/l10-enterprise-grade/app/config.py. -/
def shardNames : List String := ["shard1", "shard2"]

/-- get_shard_for_key from l10 database.py: list(SHARDS.keys())[md5 % len]. -/
def get_shard_for_key (key : String) : String :=
  shardNames.getD (md5Nat key % shardNames.length) ""

/-- get_shard_for_key as executed inside a process with state ps. -/
def get_shard_for_key_in (_ps : ProcessState) (key : String) : String :=
  get_shard_for_key key

/-! ## Circuit breaker

src/l10-enterprise-grade/app/circuit_breaker.py, class CircuitBreaker
(lines 12-68).  The generic Exception raised on an open circuit (line 29,
"Circuit breaker ... is OPEN") is the error the spec's taxonomy names
CircuitOpenError; it is modelled as the distinguished value
CallError.circuitOpen, distinct from a failure of the wrapped operation
(CallError.opFailed, the re-raised exception of line 37).  The wrapped
operation func is modelled by its outcome, an Except Unit A value; the call
wrapper returning CallError.circuitOpen is precisely the case in which the
wrapped operation is never invoked. -/

inductive CircuitState where
  | closed
  | opened
  | halfOpen
  deriving Repr, DecidableEq

structure CircuitBreaker where
  name : String
  failure_threshold : Nat
  timeout : Int
  failure_count : Nat
  last_failure_time : Option Int
  state : CircuitState
  deriving Repr, DecidableEq

/-- Constructor defaults: settings.circuit_breaker_threshold = 5 and
settings.circuit_breaker_timeout = 30 (config.py lines 28-29). -/
def CircuitBreaker.mk0 (name : String) (failure_threshold : Nat := 5)
    (timeout : Int := 30) : CircuitBreaker :=
  ⟨name, failure_threshold, timeout, 0, none, CircuitState.closed⟩

inductive CallError where
  | circuitOpen
  | opFailed
  deriving Repr, DecidableEq

namespace CircuitBreaker

/-- Predicate _should_attempt_reset: time.time() - last_failure_time >= timeout.  When
state is OPEN the source has always recorded a failure time, so the none case
is unreachable there (Python would raise a TypeError on None arithmetic). -/
def should_attempt_reset (cb : CircuitBreaker) (now : Int) : Bool :=
  match cb.last_failure_time with
  | some t => now - t ≥ cb.timeout
  | none => true

/-- The locked entry block of call (lines 24-29): either reject with the
circuit-open error, or proceed (possibly transitioning OPEN to HALF_OPEN). -/
def gate (cb : CircuitBreaker) (now : Int) : Option CircuitBreaker :=
  if cb.state = CircuitState.opened then
    if cb.should_attempt_reset now then
      some { cb with state := CircuitState.halfOpen }
    else none
  else some cb

/-- Handler _on_success (lines 39-44). -/
def on_success (cb : CircuitBreaker) : CircuitBreaker :=
  { cb with
    failure_count := 0
    state := if cb.state = CircuitState.halfOpen then CircuitState.closed
             else cb.state }

/-- Handler _on_failure (lines 46-53). -/
def on_failure (cb : CircuitBreaker) (now : Int) : CircuitBreaker :=
  let fc := cb.failure_count + 1
  { cb with
    failure_count := fc
    last_failure_time := some now
    state := if cb.failure_threshold ≤ fc then CircuitState.opened
             else cb.state }

/-- call (lines 22-37): op is the outcome the wrapped operation would have if
invoked; a circuitOpen result means it was not invoked. -/
def call (cb : CircuitBreaker) (now : Int) (op : Except Unit A) :
    Except CallError A × CircuitBreaker :=
  match cb.gate now with
  | none => (Except.error CallError.circuitOpen, cb)
  | some cb1 =>
    match op with
    | Except.ok a => (Except.ok a, cb1.on_success)
    | Except.error _ => (Except.error CallError.opFailed, cb1.on_failure now)

/-- Iterated calls whose wrapped operation fails, at the given times. -/
def failN (cb : CircuitBreaker) (times : List Int) : CircuitBreaker :=
  times.foldl (fun c t => (call c t (Except.error () : Except Unit Unit)).2) cb

end CircuitBreaker

/-! ## Rate limiter (sliding window)

src/l10-enterprise-grade/app/rate_limiter.py, is_rate_limited (lines 21-58).
The Redis sorted set rate_limit:client holds members str(current_time) with
score current_time, current_time = int(time.time()); since the member string
is determined by the score, the set is exactly a finite set of integer
seconds, modelled as Finset Int.  The network/Redis-failure path (fail open,
lines 55-58) is not modelled; these definitions describe the reachable-store
behaviour. -/

/-- ZREMRANGEBYSCORE key 0 window_start.  The set is kept as a strictly
ascending list of its members. -/
def zremrangebyscore (s : List Int) (lo hi : Int) : List Int :=
  s.filter (fun t => ¬(lo ≤ t ∧ t ≤ hi))

/-- ZADD key (str(t) : t): a member equal to str(t) is already determined by
its score, so adding an existing second is a no-op on the set; a new second
is inserted at its sorted position. -/
def zadd : List Int → Int → List Int
  | [], t => [t]
  | x :: xs, t =>
    if t < x then t :: x :: xs
    else if t = x then x :: xs
    else x :: zadd xs t

/-- ZCARD. -/
def zcard (s : List Int) : Nat := s.length

/-- ZRANGE key 0 0 WITHSCORES: the lowest-scored member, if any. -/
def zrangeFirst (s : List Int) : Option Int := s.head?

structure RLResult where
  is_limited : Bool
  remaining : Int
  reset_in : Int
  deriving Repr, DecidableEq

/-- is_rate_limited for one client whose window set is s, at integer time
current_time; maxRequests = settings.rate_limit_requests and window =
settings.rate_limit_window are the fixed parameters.  Returns the triple
(is_limited, remaining_requests, reset_in_seconds) and the new window set. -/
def is_rate_limited (maxRequests : Nat) (window : Int) (s : List Int)
    (current_time : Int) : RLResult × List Int :=
  let window_start := current_time - window
  let s1 := zremrangebyscore s 0 window_start
  let request_count := zcard s1
  if maxRequests ≤ request_count then
    match zrangeFirst s1 with
    | some oldest =>
      (⟨true, 0, max 0 (oldest + window - current_time)⟩, s1)
    | none =>
      -- Python falls through to the admit path when zrange returns nothing
      (⟨false, (maxRequests : Int) - request_count - 1, window⟩, zadd s1 current_time)
  else
    (⟨false, (maxRequests : Int) - request_count - 1, window⟩, zadd s1 current_time)

/-- A sequence of calls at the given times for one client: returns how many
were admitted (not limited) and the final window set. -/
def run_calls (maxRequests : Nat) (window : Int) (s : List Int)
    (times : List Int) : Nat × List Int :=
  times.foldl
    (fun acc t =>
      let r := is_rate_limited maxRequests window acc.2 t
      (if r.1.is_limited then acc.1 else acc.1 + 1, r.2))
    (0, s)

/-! ## String-keyed maps (dict, Redis keyspace, SQL table by primary key) -/

abbrev StrMap (α : Type) : Type := String → Option α

def StrMap.empty : StrMap α := fun _ => none

def StrMap.set (m : StrMap α) (k : String) (v : α) : StrMap α :=
  fun x => if x = k then some v else m x

def StrMap.del (m : StrMap α) (k : String) : StrMap α :=
  fun x => if x = k then none else m x

/-! ## Multi-tier cache

src/l10-enterprise-grade/app/cache.py (cache_get lines 27-57, cache_set lines
59-76, cache_delete lines 78-91).  l1 is the in-process TTLCache(maxsize=1000,
ttl=60) and l2 the Redis keyspace written with SETEX cache_ttl; capacity
eviction and TTL expiry are modelled by the explicit environment step
expire_entry rather than by a clock on every entry.  l2_ok says whether the
Redis L2 round-trip would succeed (the breaker-wrapped _get_l2/_set_l2 raise
iff it is false). -/

inductive CacheLevel where
  | L1
  | L2
  deriving Repr, DecidableEq

structure CacheState where
  l1 : StrMap String
  l2 : StrMap String
  cb2 : CircuitBreaker

def cache_key (key : String) : String := "record:" ++ key

/-- Python string truthiness on an optional value: None and "" are falsy. -/
def truthy : Option String → Bool
  | none => false
  | some s => s != ""

/-- cache_get: L1 membership test, then breaker-guarded L2 get with
truthiness-gated promotion into L1; all L2 errors are swallowed into a miss. -/
def cache_get (st : CacheState) (l2_ok : Bool) (now : Int) (key : String) :
    (Option String × Option CacheLevel) × CacheState :=
  let ck := cache_key key
  match st.l1 ck with
  | some v => ((some v, some CacheLevel.L1), st)
  | none =>
    let op : Except Unit (Option String) :=
      if l2_ok then Except.ok (st.l2 ck) else Except.error ()
    match CircuitBreaker.call st.cb2 now op with
    | (Except.ok v?, cb2') =>
      match v? with
      | some v =>
        if v != "" then
          ((some v, some CacheLevel.L2),
           { st with l1 := st.l1.set ck v, cb2 := cb2' })
        else ((none, none), { st with cb2 := cb2' })
      | none => ((none, none), { st with cb2 := cb2' })
    | (Except.error _, cb2') => ((none, none), { st with cb2 := cb2' })

/-- cache_set: unconditional L1 write, then breaker-guarded L2 SETEX whose
failure is swallowed (logged only). -/
def cache_set (st : CacheState) (l2_ok : Bool) (now : Int) (key value : String) :
    CacheState :=
  let ck := cache_key key
  let st1 := { st with l1 := st.l1.set ck value }
  let op : Except Unit Unit := if l2_ok then Except.ok () else Except.error ()
  match CircuitBreaker.call st1.cb2 now op with
  | (Except.ok _, cb2') => { st1 with l2 := st1.l2.set ck value, cb2 := cb2' }
  | (Except.error _, cb2') => { st1 with cb2 := cb2' }

/-- cache_delete: L1 delete, then plain try/except Redis delete (no breaker). -/
def cache_delete (st : CacheState) (l2_ok : Bool) (key : String) : CacheState :=
  let ck := cache_key key
  let st1 := { st with l1 := st.l1.del ck }
  if l2_ok then { st1 with l2 := st1.l2.del ck } else st1

/-- Environment step: TTL expiry / capacity eviction drops the entry for key
from both tiers (each tier expires independently; dropping both models the
state after both TTLs have passed). -/
def expire_entry (st : CacheState) (key : String) : CacheState :=
  { st with l1 := st.l1.del (cache_key key), l2 := st.l2.del (cache_key key) }

/-! ## Sharded database

src/l10-enterprise-grade/app/database.py (write_record lines 75-96,
read_record lines 98-110, schema lines 61-68).  A shard is a records table
keyed by primary key; CURRENT_TIMESTAMP is the explicit now argument.  The
circuit-breaker guard on get_connection is abstracted into the db_ok flag of
the facade below (the breaker itself is verified separately). -/

structure DbRecord where
  value : String
  created_at : Int
  updated_at : Int
  deriving Repr, DecidableEq

/-- The INSERT ... ON CONFLICT (key) DO UPDATE statement shared by l10
database.py (lines 82-89), l6 worker.py (lines 34-41): on insert created_at
takes its DEFAULT CURRENT_TIMESTAMP, on conflict only value and updated_at
change. -/
def records_upsert (tbl : StrMap DbRecord) (key value : String) (now : Int) :
    StrMap DbRecord :=
  match tbl key with
  | none => tbl.set key ⟨value, now, now⟩
  | some r => tbl.set key ⟨value, r.created_at, now⟩

abbrev ShardMap : Type := String → StrMap DbRecord

/-- write_record: route to the shard of the key, upsert there, return the
shard name. -/
def write_record (db : ShardMap) (key value : String) (now : Int) :
    String × ShardMap :=
  let shard := get_shard_for_key key
  (shard, fun s => if s = shard then records_upsert (db s) key value now else db s)

/-- read_record: point SELECT of value on the given shard; None when absent. -/
def read_record (db : ShardMap) (shard key : String) : Option String :=
  (db shard key).map (fun r => r.value)

/-! ## Request facade

src/l10-enterprise-grade/app/main.py, write (lines 117-169) and read (lines
171-259).  Auth, rate-limit middleware, metrics and latency fields are not
part of the modelled claims; db_ok / l2_ok say whether the guarded store and
L2 accesses succeed, and an Except.error result is the HTTPException 500
path. -/

structure WriteResponse where
  success : Bool
  key : String
  shard : String
  cached : Bool
  deriving Repr, DecidableEq

structure ReadResponse where
  success : Bool
  key : String
  value : Option String
  cache_hit : Bool
  cache_level : Option CacheLevel
  shard : Option String
  message : Option String
  deriving Repr, DecidableEq

instance {E A : Type} [DecidableEq E] [DecidableEq A] : DecidableEq (Except E A) :=
  fun x y =>
  match x, y with
  | Except.ok a, Except.ok b =>
    if h : a = b then isTrue (h ▸ rfl) else isFalse (fun he => h (Except.ok.inj he))
  | Except.error a, Except.error b =>
    if h : a = b then isTrue (h ▸ rfl) else isFalse (fun he => h (Except.error.inj he))
  | Except.ok _, Except.error _ => isFalse (fun he => Except.noConfusion he)
  | Except.error _, Except.ok _ => isFalse (fun he => Except.noConfusion he)

structure SysState where
  cache : CacheState
  db : ShardMap

/-- POST /write: durable write, cache_delete, then cache_set (write-through). -/
def facade_write (sys : SysState) (l2_ok db_ok : Bool) (now : Int)
    (key value : String) : Except Unit WriteResponse × SysState :=
  if db_ok then
    let wr := write_record sys.db key value now
    let c1 := cache_delete sys.cache l2_ok key
    let c2 := cache_set c1 l2_ok now key value
    (Except.ok ⟨true, key, wr.1, true⟩, ⟨c2, wr.2⟩)
  else (Except.error (), sys)

/-- GET /read: cache_get, truthiness test, then sharded read; a truthy
database value is re-cached; falsy value or absence is the 404 response. -/
def facade_read (sys : SysState) (l2_ok db_ok : Bool) (now : Int) (key : String) :
    Except Unit ReadResponse × SysState :=
  let g := cache_get sys.cache l2_ok now key
  let cache1 := g.2
  if truthy g.1.1 then
    (Except.ok ⟨true, key, g.1.1, true, g.1.2, none, none⟩,
     { sys with cache := cache1 })
  else
    if db_ok then
      let shard := get_shard_for_key key
      match read_record sys.db shard key with
      | some v =>
        if v != "" then
          let cache2 := cache_set cache1 l2_ok now key v
          (Except.ok ⟨true, key, some v, false, none, some shard, none⟩,
           ⟨cache2, sys.db⟩)
        else
          (Except.ok ⟨false, key, none, false, none, none, some "Key not found"⟩,
           { sys with cache := cache1 })
      | none =>
        (Except.ok ⟨false, key, none, false, none, none, some "Key not found"⟩,
         { sys with cache := cache1 })
    else (Except.error (), { sys with cache := cache1 })

/-! ## Event projector

src/l7-cqrs/app/projector.py, project_event (lines 23-53) and main (lines
55-89).  apply_ok says whether the read-database upsert of that event would
succeed; on failure the exception is caught (line 51), logged, and the
transaction is not committed.  main's consumption loop assigns last_event_id
:= event_id after every project_event call, without looking at its result
(lines 77-80). -/

structure EventData where
  type : String
  key : String
  value : String
  deriving Repr, DecidableEq

structure ReadRec where
  value : String
  created_at : Int
  updated_at : Int
  write_count : Nat
  deriving Repr, DecidableEq

/-- The read-model upsert of project_event (lines 37-45): write_count starts
at 1 and is incremented on every conflicting re-application. -/
def project_apply (tbl : StrMap ReadRec) (key value : String) (now : Int) :
    StrMap ReadRec :=
  match tbl key with
  | none => tbl.set key ⟨value, now, now, 1⟩
  | some r => tbl.set key ⟨value, r.created_at, now, r.write_count + 1⟩

/-- project_event: Some true on a successful apply, some false when the apply
raised and was caught, none for an event type with no handler (Python returns
None there). -/
def project_event (tbl : StrMap ReadRec) (e : EventData) (apply_ok : Bool)
    (now : Int) : Option Bool × StrMap ReadRec :=
  if e.type = "RecordCreated" ∨ e.type = "RecordUpdated" then
    if apply_ok then (some true, project_apply tbl e.key e.value now)
    else (some false, tbl)
  else (none, tbl)

structure PolledEvent where
  id : String
  data : EventData
  apply_ok : Bool
  deriving Repr, DecidableEq

/-- One pass of main's consumption loop over a polled batch: project each
event and set last_event_id := event_id unconditionally. -/
def projector_loop (cursor : String) (tbl : StrMap ReadRec) (now : Int)
    (events : List PolledEvent) : String × StrMap ReadRec :=
  events.foldl
    (fun acc e => (e.id, (project_event acc.2 e.data e.apply_ok now).2))
    (cursor, tbl)

/-! ## Global replication

src/l9-global-distributed/app/main.py, write_data (lines 51-89), with
geo_router.py and regional_db.py.  region_ok says whether write_record
against that region's database would succeed (its pool reachable); a failed
regional write raises and leaves that region unchanged. -/

def allRegions : List String := ["us-east", "eu-west", "asia-pac"]

/-- get_region_from_header (geo_router.py lines 8-18): an explicit known
region wins, anything else defaults to us-east. -/
def get_region_from_header (h : Option String) : String :=
  match h with
  | some r => if r ∈ allRegions then r else "us-east"
  | none => "us-east"

/-- get_write_region (geo_router.py lines 27-32). -/
def get_write_region (user_region : String) : String := user_region

/-- get_replication_regions (geo_router.py lines 34-39). -/
def get_replication_regions (primary : String) : List String :=
  allRegions.filter (fun r => r ≠ primary)

/-- REGIONS[r]["name"] (config.py lines 28-44). -/
def regionName (r : String) : String :=
  if r = "us-east" then "US-EAST"
  else if r = "eu-west" then "EU-WEST"
  else if r = "asia-pac" then "ASIA-PAC"
  else r

structure RegionState where
  stores : String → StrMap String
  caches : String → StrMap String

/-- regional_db.write_record (lines 88-106): upsert into the region's records
table, then delete record:key from that region's cache. -/
def l9_write_record (st : RegionState) (region key value : String) :
    RegionState :=
  { stores := fun s => if s = region then (st.stores s).set key value else st.stores s,
    caches := fun s => if s = region then (st.caches s).del ("record:" ++ key) else st.caches s }

structure L9WriteResponse where
  success : Bool
  key : String
  primary_region : String
  replicated_to : List String
  deriving Repr, DecidableEq

/-- write_data: primary write, then per-target try/except fan-out when
replication is enabled; none is the HTTPException 500 of a failed primary
write. -/
def write_data (replication_enabled : Bool) (region_ok : String → Bool)
    (st : RegionState) (x_region : Option String) (key value : String) :
    Option L9WriteResponse × RegionState :=
  let user_region := get_region_from_header x_region
  let primary := get_write_region user_region
  if region_ok primary then
    let st1 := l9_write_record st primary key value
    let rep :=
      if replication_enabled then
        (get_replication_regions primary).foldl
          (fun acc r =>
            if region_ok r then (acc.1 ++ [regionName r], l9_write_record acc.2 r key value)
            else acc)
          (([] : List String), st1)
      else ([], st1)
    (some ⟨true, key, regionName primary, rep.1⟩, rep.2)
  else (none, st)

/-! ## Write buffer and worker

src/l6-write-buffering/app/queue.py (enqueue_write lines 31-51,
dequeue_writes lines 53-73) and worker.py (process_writes lines 21-53, main
lines 55-86).  redis_ok / db_ok say whether the queue store and the database
are reachable.  process_writes runs the whole batch inside one connection
with a single commit at its end, so a caught exception leaves the database
unchanged; the per-item invalidate_cache calls are outside the modelled
claims. -/

structure QueuedWrite where
  key : String
  value : String
  timestamp : String
  deriving Repr, DecidableEq

/-- enqueue_write: RPUSH and report True; on an unreachable queue report
False with nothing stored. -/
def enqueue_write (redis_ok : Bool) (q : List QueuedWrite) (w : QueuedWrite) :
    Bool × List QueuedWrite :=
  if redis_ok then (true, q ++ [w]) else (false, q)

/-- dequeue_writes: up to batch_size LPOPs; the popped items leave the queue
at dequeue time, before any of them is applied. -/
def dequeue_writes (redis_ok : Bool) (batch_size : Nat) (q : List QueuedWrite) :
    List QueuedWrite × List QueuedWrite :=
  if redis_ok then (q.take batch_size, q.drop batch_size) else ([], q)

/-- process_writes: upsert every item of the batch and commit once; a caught
exception means nothing of the batch is committed, the error is logged and
the function returns normally. -/
def process_writes (writes : List QueuedWrite) (db_ok : Bool)
    (db : StrMap DbRecord) (now : Int) : StrMap DbRecord :=
  if db_ok then
    writes.foldl (fun tbl w => records_upsert tbl w.key w.value now) db
  else db

/-- One iteration of the worker loop: dequeue a batch, process it if
nonempty (otherwise the loop sleeps).  The step always returns, so the loop
keeps polling after a failed batch. -/
def worker_step (redis_ok db_ok : Bool) (batch_size : Nat) (now : Int)
    (q : List QueuedWrite) (db : StrMap DbRecord) :
    List QueuedWrite × StrMap DbRecord :=
  let dq := dequeue_writes redis_ok batch_size q
  if dq.1.isEmpty then (dq.2, db)
  else (dq.2, process_writes dq.1 db_ok db now)

/-! ## Helper lemmas -/

theorem StrMap.set_self (m : StrMap α) (k : String) (v : α) :
    m.set k v k = some v := by
  simp [StrMap.set]

theorem StrMap.set_ne (m : StrMap α) (k x : String) (v : α) (h : x ≠ k) :
    m.set k v x = m x := by
  simp [StrMap.set, h]

theorem StrMap.del_self (m : StrMap α) (k : String) : m.del k k = none := by
  simp [StrMap.del]

theorem CircuitBreaker.gate_not_opened (cb : CircuitBreaker) (now : Int)
    (h : cb.state ≠ CircuitState.opened) : cb.gate now = some cb := by
  simp [CircuitBreaker.gate, h]

theorem CircuitBreaker.call_not_opened_ok (cb : CircuitBreaker) (now : Int)
    (a : A) (h : cb.state ≠ CircuitState.opened) :
    CircuitBreaker.call cb now (Except.ok a) = (Except.ok a, cb.on_success) := by
  simp [CircuitBreaker.call, cb.gate_not_opened now h]

theorem CircuitBreaker.call_not_opened_err (cb : CircuitBreaker) (now : Int)
    (h : cb.state ≠ CircuitState.opened) :
    CircuitBreaker.call cb now (Except.error () : Except Unit A) =
      (Except.error CallError.opFailed, cb.on_failure now) := by
  simp [CircuitBreaker.call, cb.gate_not_opened now h]

theorem CircuitBreaker.on_success_closed (cb : CircuitBreaker)
    (h : cb.state = CircuitState.closed) :
    cb.on_success = { cb with failure_count := 0 } := by
  simp [CircuitBreaker.on_success, h]

theorem cache_get_l1_hit (st : CacheState) (l2_ok : Bool) (now : Int)
    (key v : String) (h : st.l1 (cache_key key) = some v) :
    cache_get st l2_ok now key = ((some v, some CacheLevel.L1), st) := by
  simp [cache_get, h]

theorem cache_get_l2_hit (st : CacheState) (now : Int) (key v : String)
    (h1 : st.l1 (cache_key key) = none) (h2 : st.l2 (cache_key key) = some v)
    (hv : v ≠ "") (hcb : st.cb2.state = CircuitState.closed) :
    cache_get st true now key =
      ((some v, some CacheLevel.L2),
       { st with l1 := st.l1.set (cache_key key) v, cb2 := st.cb2.on_success }) := by
  have hne : st.cb2.state ≠ CircuitState.opened := by rw [hcb]; intro h; cases h
  simp [cache_get, h1, h2, CircuitBreaker.call_not_opened_ok _ _ _ hne, hv]

theorem cache_get_l2_none (st : CacheState) (now : Int) (key : String)
    (h1 : st.l1 (cache_key key) = none) (h2 : st.l2 (cache_key key) = none)
    (hcb : st.cb2.state = CircuitState.closed) :
    cache_get st true now key = ((none, none), { st with cb2 := st.cb2.on_success }) := by
  have hne : st.cb2.state ≠ CircuitState.opened := by rw [hcb]; intro h; cases h
  simp [cache_get, h1, h2, CircuitBreaker.call_not_opened_ok _ _ _ hne]

theorem cache_get_l2_empty (st : CacheState) (now : Int) (key : String)
    (h1 : st.l1 (cache_key key) = none) (h2 : st.l2 (cache_key key) = some "")
    (hcb : st.cb2.state = CircuitState.closed) :
    cache_get st true now key = ((none, none), { st with cb2 := st.cb2.on_success }) := by
  have hne : st.cb2.state ≠ CircuitState.opened := by rw [hcb]; intro h; cases h
  simp [cache_get, h1, h2, CircuitBreaker.call_not_opened_ok _ _ _ hne]

theorem cache_set_spec (st : CacheState) (now : Int) (key v : String)
    (hcb : st.cb2.state = CircuitState.closed) :
    cache_set st true now key v =
      ⟨st.l1.set (cache_key key) v, st.l2.set (cache_key key) v,
       st.cb2.on_success⟩ := by
  have hne : st.cb2.state ≠ CircuitState.opened := by rw [hcb]; intro h; cases h
  simp [cache_set, CircuitBreaker.call_not_opened_ok _ _ _ hne]

theorem CircuitBreaker.failN_spec :
    ∀ (times : List Int) (cb : CircuitBreaker) (tl : Int),
      cb.state = CircuitState.closed →
      cb.failure_count + times.length ≤ cb.failure_threshold →
      times.getLast? = some tl →
      (CircuitBreaker.failN cb times).name = cb.name ∧
      (CircuitBreaker.failN cb times).failure_threshold = cb.failure_threshold ∧
      (CircuitBreaker.failN cb times).timeout = cb.timeout ∧
      (CircuitBreaker.failN cb times).failure_count
          = cb.failure_count + times.length ∧
      (CircuitBreaker.failN cb times).last_failure_time = some tl ∧
      (CircuitBreaker.failN cb times).state =
        (if cb.failure_threshold ≤ cb.failure_count + times.length
         then CircuitState.opened else CircuitState.closed)
  | [], cb, tl => by intro _ _ hlast; cases hlast
  | t :: rest, cb, tl => by
    intro hcl hle hlast
    have hne : cb.state ≠ CircuitState.opened := by rw [hcl]; intro h; cases h
    have hstep : CircuitBreaker.failN cb (t :: rest)
        = CircuitBreaker.failN (cb.on_failure t) rest := by
      simp [CircuitBreaker.failN, CircuitBreaker.call_not_opened_err cb t hne]
    have hbody : CircuitBreaker.failN (cb.on_failure t) []
        = cb.on_failure t := rfl
    match rest, hlast with
    | [], hlast =>
      have htl : t = tl := by simpa using hlast
      subst htl
      rw [hstep, hbody]
      refine ⟨rfl, rfl, rfl, by simp [CircuitBreaker.on_failure], rfl, ?_⟩
      simp [CircuitBreaker.on_failure, hcl]
    | r :: rs, hlast =>
      have hlast2 : (r :: rs).getLast? = some tl := by
        simpa [List.getLast?_cons_cons] using hlast
      have hlt : cb.failure_count + 1 < cb.failure_threshold := by
        have := hle
        simp [List.length_cons] at this
        omega
      have hcl2 : (cb.on_failure t).state = CircuitState.closed := by
        simp [CircuitBreaker.on_failure, hcl]
        omega
      have hle2 : (cb.on_failure t).failure_count + (r :: rs).length
          ≤ (cb.on_failure t).failure_threshold := by
        have := hle
        simp only [CircuitBreaker.on_failure, List.length_cons] at this ⊢
        omega
      have ih := CircuitBreaker.failN_spec (r :: rs) (cb.on_failure t) tl hcl2
        hle2 hlast2
      obtain ⟨i1, i2, i3, i4, i5, i6⟩ := ih
      rw [hstep]
      refine ⟨?_, ?_, ?_, ?_, i5, ?_⟩
      · rw [i1]; simp [CircuitBreaker.on_failure]
      · rw [i2]; simp [CircuitBreaker.on_failure]
      · rw [i3]; simp [CircuitBreaker.on_failure]
      · rw [i4]
        simp [CircuitBreaker.on_failure]
        omega
      · rw [i6]
        simp only [CircuitBreaker.on_failure, List.length_cons]
        congr 1
        simp
        omega

theorem CircuitBreaker.on_success_state_closed (cb : CircuitBreaker)
    (h : cb.state = CircuitState.closed) :
    cb.on_success.state = CircuitState.closed := by
  simp [CircuitBreaker.on_success, h]

theorem write_record_at (d : ShardMap) (key w : String) (n : Int) :
    (write_record d key w n).2 (get_shard_for_key key) key =
      match d (get_shard_for_key key) key with
      | none => some ⟨w, n, n⟩
      | some s => some ⟨w, s.created_at, n⟩ := by
  cases h : d (get_shard_for_key key) key <;>
    simp [write_record, records_upsert, h, StrMap.set]

theorem facade_write_healthy (sys : SysState) (now : Int) (key v : String)
    (hcb : sys.cache.cb2.state = CircuitState.closed) :
    facade_write sys true true now key v =
      (Except.ok ⟨true, key, get_shard_for_key key, true⟩,
       ⟨⟨(sys.cache.l1.del (cache_key key)).set (cache_key key) v,
         (sys.cache.l2.del (cache_key key)).set (cache_key key) v,
         sys.cache.cb2.on_success⟩,
        (write_record sys.db key v now).2⟩) := by
  have hdel : cache_delete sys.cache true key =
      ⟨sys.cache.l1.del (cache_key key), sys.cache.l2.del (cache_key key),
       sys.cache.cb2⟩ := rfl
  have hset := cache_set_spec (⟨sys.cache.l1.del (cache_key key),
    sys.cache.l2.del (cache_key key), sys.cache.cb2⟩ : CacheState) now key v hcb
  simp [facade_write, hdel, hset, write_record]

theorem facade_read_l1_hit (sys : SysState) (now : Int) (key v : String)
    (h : sys.cache.l1 (cache_key key) = some v) (hv : v ≠ "") :
    facade_read sys true true now key =
      (Except.ok ⟨true, key, some v, true, some CacheLevel.L1, none, none⟩, sys) := by
  simp [facade_read, cache_get_l1_hit sys.cache true now key v h, truthy, hv]

theorem facade_read_db_hit (sys : SysState) (now : Int) (key : String)
    (r : DbRecord)
    (h1 : sys.cache.l1 (cache_key key) = none)
    (h2 : sys.cache.l2 (cache_key key) = none)
    (hcb : sys.cache.cb2.state = CircuitState.closed)
    (hdb : sys.db (get_shard_for_key key) key = some r)
    (hv : r.value ≠ "") :
    facade_read sys true true now key =
      (Except.ok ⟨true, key, some r.value, false, none,
          some (get_shard_for_key key), none⟩,
       ⟨⟨sys.cache.l1.set (cache_key key) r.value,
         sys.cache.l2.set (cache_key key) r.value,
         sys.cache.cb2.on_success.on_success⟩, sys.db⟩) := by
  have hg := cache_get_l2_none sys.cache now key h1 h2 hcb
  have hcb' : ({ sys.cache with cb2 := sys.cache.cb2.on_success } : CacheState).cb2.state
      = CircuitState.closed := CircuitBreaker.on_success_state_closed _ hcb
  have hset := cache_set_spec ({ sys.cache with cb2 := sys.cache.cb2.on_success } : CacheState)
    now key r.value hcb'
  simp [facade_read, hg, truthy, read_record, hdb, hv, hset]

/-! ## Claims -/

/-- C1 (code bug): evaluated at the failing input.  With maxRequests = 2 and
window = 60, three calls arriving at the same integer second are all three
admitted -- the zset member is str(current_time), so same-second requests
collapse into a single log entry and the sliding log undercounts -- while, as
the claim states, calls at distinct seconds are bounded by maxRequests: of
[10, 11, 12] only two are admitted and the third is rejected with
reset_in = 58 > 0. -/
theorem rate_limiter_same_second_burst :
    (run_calls 2 60 [] [10, 10, 10]).1 = 3 ∧
    (run_calls 2 60 [] [10, 11, 12]).1 = 2 ∧
    (is_rate_limited 2 60 [10, 11] 12).1 = ⟨true, 0, 58⟩ := by
  refine ⟨by decide, by decide, by decide⟩

/-- C2 (code bug): evaluated at the failing input.  A single polled event
whose apply fails (apply_ok = false, the caught exception of projector.py
line 51) still advances last_event_id from "0" to "1-0", and the read model
does not contain the event's key; the event is never re-read. -/
theorem projector_skips_failed_event :
    (projector_loop "0" (StrMap.empty : StrMap ReadRec) 100
        [⟨"1-0", ⟨"RecordCreated", "k", "v"⟩, false⟩]).1 = "1-0" ∧
    (projector_loop "0" (StrMap.empty : StrMap ReadRec) 100
        [⟨"1-0", ⟨"RecordCreated", "k", "v"⟩, false⟩]).2 "k" = none := by
  refine ⟨by decide, by decide⟩

/-- C3: a breaker with static threshold and cooldown that has seen threshold
consecutive failures of the wrapped operation (at the listed times, the last
at tl) is OPEN with failure_count = threshold; before the cooldown has
elapsed a call raises the circuit-open error immediately, without invoking
the wrapped operation and without changing the breaker; once cooldown seconds
have elapsed the locked entry block admits the call in state HALF_OPEN, a
successful probe returns the breaker to CLOSED with failure_count = 0, and a
failing probe is really invoked (opFailed, not circuitOpen) and reopens the
breaker; moreover a success in any non-rejecting state resets failure_count
to 0, and from HALF_OPEN it transitions to CLOSED. -/
theorem circuit_breaker_lifecycle
    (name : String) (threshold : Nat) (cooldown : Int) (times : List Int)
    (tl now1 now2 : Int) (op : Except Unit String) (a : String)
    (cb1 cb cbh : CircuitBreaker)
    (hcb1 : cb1 = CircuitBreaker.failN (CircuitBreaker.mk0 name threshold cooldown) times)
    (hlen : times.length = threshold)
    (hlast : times.getLast? = some tl)
    (h1 : now1 - tl < cooldown)
    (h2 : cooldown ≤ now2 - tl)
    (hcb : cb.state ≠ CircuitState.opened)
    (hcbh : cbh.state = CircuitState.halfOpen) :
    (cb1.state = CircuitState.opened ∧ cb1.failure_count = threshold ∧
      cb1.last_failure_time = some tl) ∧
    (CircuitBreaker.call cb1 now1 op = (Except.error CallError.circuitOpen, cb1)) ∧
    (cb1.gate now2 = some { cb1 with state := CircuitState.halfOpen }) ∧
    ((CircuitBreaker.call cb1 now2 (Except.ok a)).1 = Except.ok a ∧
      (CircuitBreaker.call cb1 now2 (Except.ok a)).2.state = CircuitState.closed ∧
      (CircuitBreaker.call cb1 now2 (Except.ok a)).2.failure_count = 0) ∧
    ((CircuitBreaker.call cb1 now2 (Except.error () : Except Unit String)).1 =
        Except.error CallError.opFailed ∧
      (CircuitBreaker.call cb1 now2 (Except.error () : Except Unit String)).2.state =
        CircuitState.opened) ∧
    (CircuitBreaker.call cb now2 (Except.ok a) = (Except.ok a, cb.on_success) ∧
      cb.on_success.failure_count = 0) ∧
    (cbh.on_success.state = CircuitState.closed) := by
  have hmk : (CircuitBreaker.mk0 name threshold cooldown).state
      = CircuitState.closed := rfl
  have hle : (CircuitBreaker.mk0 name threshold cooldown).failure_count
      + times.length ≤ (CircuitBreaker.mk0 name threshold cooldown).failure_threshold := by
    simp [CircuitBreaker.mk0, hlen]
  obtain ⟨hname, hth, hto, hfc, hlft, hst⟩ :=
    CircuitBreaker.failN_spec times (CircuitBreaker.mk0 name threshold cooldown)
      tl hmk hle hlast
  rw [← hcb1] at hname hth hto hfc hlft hst
  have hth : cb1.failure_threshold = threshold := hth
  have hto : cb1.timeout = cooldown := hto
  have hfc : cb1.failure_count = threshold := by
    rw [hfc]; simp [CircuitBreaker.mk0, hlen]
  have hopen : cb1.state = CircuitState.opened := by
    rw [hst]; simp [CircuitBreaker.mk0, hlen]
  have hsar1 : cb1.should_attempt_reset now1 = false := by
    simp [CircuitBreaker.should_attempt_reset, hlft, hto]
    omega
  have hsar2 : cb1.should_attempt_reset now2 = true := by
    simp [CircuitBreaker.should_attempt_reset, hlft, hto]
    omega
  have hadmit1 : cb1.gate now1 = none := by
    simp [CircuitBreaker.gate, hopen, hsar1]
  have hadmit2 : cb1.gate now2 = some { cb1 with state := CircuitState.halfOpen } := by
    simp [CircuitBreaker.gate, hopen, hsar2]
  refine ⟨⟨hopen, hfc, hlft⟩, ?_, hadmit2, ⟨?_, ?_, ?_⟩, ⟨?_, ?_⟩, ?_, ?_⟩
  · simp [CircuitBreaker.call, hadmit1]
  · simp [CircuitBreaker.call, hadmit2]
  · simp [CircuitBreaker.call, hadmit2, CircuitBreaker.on_success]
  · simp [CircuitBreaker.call, hadmit2, CircuitBreaker.on_success]
  · simp [CircuitBreaker.call, hadmit2]
  · simp [CircuitBreaker.call, hadmit2, CircuitBreaker.on_failure, hth, hfc]
  · exact ⟨CircuitBreaker.call_not_opened_ok cb now2 a hcb,
      by simp [CircuitBreaker.on_success]⟩
  · simp [CircuitBreaker.on_success, hcbh]

/-- Witness for circuit_breaker_lifecycle at threshold 2, cooldown 30,
failures at times 0 and 5, a rejected call at time 20 and an admitted probe
at time 40. -/
theorem circuit_breaker_lifecycle_witness :
    (([0, 5] : List Int).length = 2 ∧ ([0, 5] : List Int).getLast? = some 5 ∧
      (20 : Int) - 5 < 30 ∧ (30 : Int) ≤ 40 - 5 ∧
      (CircuitBreaker.mk0 "shard1" 5 30).state ≠ CircuitState.opened ∧
      (⟨"cache_l2", 5, 30, 5, some 0, CircuitState.halfOpen⟩ : CircuitBreaker).state
        = CircuitState.halfOpen) ∧
    (((CircuitBreaker.failN (CircuitBreaker.mk0 "shard1" 2 30) [0, 5]).state
          = CircuitState.opened ∧
        (CircuitBreaker.failN (CircuitBreaker.mk0 "shard1" 2 30) [0, 5]).failure_count = 2 ∧
        (CircuitBreaker.failN (CircuitBreaker.mk0 "shard1" 2 30) [0, 5]).last_failure_time
          = some 5) ∧
      (CircuitBreaker.call (CircuitBreaker.failN (CircuitBreaker.mk0 "shard1" 2 30) [0, 5])
          20 (Except.error () : Except Unit String) =
        (Except.error CallError.circuitOpen,
          CircuitBreaker.failN (CircuitBreaker.mk0 "shard1" 2 30) [0, 5])) ∧
      ((CircuitBreaker.failN (CircuitBreaker.mk0 "shard1" 2 30) [0, 5]).gate 40 =
        some { CircuitBreaker.failN (CircuitBreaker.mk0 "shard1" 2 30) [0, 5] with
                state := CircuitState.halfOpen }) ∧
      ((CircuitBreaker.call (CircuitBreaker.failN (CircuitBreaker.mk0 "shard1" 2 30) [0, 5])
            40 (Except.ok "r")).1 = Except.ok "r" ∧
        (CircuitBreaker.call (CircuitBreaker.failN (CircuitBreaker.mk0 "shard1" 2 30) [0, 5])
            40 (Except.ok "r")).2.state = CircuitState.closed ∧
        (CircuitBreaker.call (CircuitBreaker.failN (CircuitBreaker.mk0 "shard1" 2 30) [0, 5])
            40 (Except.ok "r")).2.failure_count = 0) ∧
      ((CircuitBreaker.call (CircuitBreaker.failN (CircuitBreaker.mk0 "shard1" 2 30) [0, 5])
            40 (Except.error () : Except Unit String)).1 = Except.error CallError.opFailed ∧
        (CircuitBreaker.call (CircuitBreaker.failN (CircuitBreaker.mk0 "shard1" 2 30) [0, 5])
            40 (Except.error () : Except Unit String)).2.state = CircuitState.opened) ∧
      (CircuitBreaker.call (CircuitBreaker.mk0 "shard1" 5 30) 40 (Except.ok "r") =
          (Except.ok "r", (CircuitBreaker.mk0 "shard1" 5 30).on_success) ∧
        (CircuitBreaker.mk0 "shard1" 5 30).on_success.failure_count = 0) ∧
      ((⟨"cache_l2", 5, 30, 5, some 0, CircuitState.halfOpen⟩ : CircuitBreaker).on_success.state
        = CircuitState.closed)) :=
  ⟨⟨by decide, by decide, by decide, by decide, by decide, by decide⟩,
    circuit_breaker_lifecycle "shard1" 2 30 [0, 5] 5 20 40 (Except.error ()) "r"
      (CircuitBreaker.failN (CircuitBreaker.mk0 "shard1" 2 30) [0, 5])
      (CircuitBreaker.mk0 "shard1" 5 30)
      (⟨"cache_l2", 5, 30, 5, some 0, CircuitState.halfOpen⟩ : CircuitBreaker)
      rfl (by decide) (by decide) (by decide) (by decide) (by decide) (by decide)⟩

/-- C5: routing is a pure deterministic function of the key (and the fixed
partition count) alone: two processes in arbitrary, arbitrarily different
mutable states (different hash seeds, i.e. before and after a restart) route
the key identically; the route is the stable MD5 content hash of the key
modulo the partition count, lies below the partition count, and the l10
variant always answers one of the configured shard names. -/
theorem shard_router_deterministic (ps1 ps2 : ProcessState) (key : String)
    (n : Nat) (hn : 0 < n) :
    get_shard_id_in ps1 key n = get_shard_id_in ps2 key n ∧
    get_shard_id key n = md5Nat key % n ∧
    get_shard_id key n < n ∧
    get_shard_for_key_in ps1 key = get_shard_for_key_in ps2 key ∧
    get_shard_for_key key ∈ shardNames := by
  refine ⟨rfl, rfl, Nat.mod_lt _ hn, rfl, ?_⟩
  have h2 : md5Nat key % 2 < 2 := Nat.mod_lt _ (by decide)
  have h01 : md5Nat key % 2 = 0 ∨ md5Nat key % 2 = 1 := by omega
  rcases h01 with h | h <;> simp [get_shard_for_key, shardNames, h]

/-- Witness for shard_router_deterministic: key alpha with 2 partitions, in
two processes whose states differ. -/
theorem shard_router_deterministic_witness :
    (0 < 2) ∧
    (get_shard_id_in ⟨37⟩ "alpha" 2 = get_shard_id_in ⟨2026⟩ "alpha" 2 ∧
      get_shard_id "alpha" 2 = md5Nat "alpha" % 2 ∧
      get_shard_id "alpha" 2 < 2 ∧
      get_shard_for_key_in ⟨37⟩ "alpha" = get_shard_for_key_in ⟨2026⟩ "alpha" ∧
      get_shard_for_key "alpha" ∈ shardNames) :=
  ⟨by decide, shard_router_deterministic ⟨37⟩ ⟨2026⟩ "alpha" 2 (by decide)⟩

/-- C9: upserting (k, v1) at time t1 into a table not containing k, then
(k, v2) at a later time t2, routes both writes to the same shard; reading k
afterwards yields v2; created_at keeps the first insert's time t1 while
updated_at moves from t1 to t2, strictly increasing; and in general an upsert
over an existing record keeps created_at and stamps updated_at with the write
time (so updated_at is non-decreasing whenever the clock is). -/
theorem write_read_upsert (db : ShardMap) (key v1 v2 : String) (t1 t2 : Int)
    (db' : ShardMap) (v : String) (t : Int) (r : DbRecord)
    (h0 : db (get_shard_for_key key) key = none) (ht : t1 < t2)
    (hr : db' (get_shard_for_key key) key = some r) :
    (write_record db key v1 t1).1 = get_shard_for_key key ∧
    (write_record (write_record db key v1 t1).2 key v2 t2).1
      = get_shard_for_key key ∧
    read_record (write_record (write_record db key v1 t1).2 key v2 t2).2
      (get_shard_for_key key) key = some v2 ∧
    (write_record db key v1 t1).2 (get_shard_for_key key) key
      = some ⟨v1, t1, t1⟩ ∧
    (write_record (write_record db key v1 t1).2 key v2 t2).2
      (get_shard_for_key key) key = some ⟨v2, t1, t2⟩ ∧
    t1 < t2 ∧
    (write_record db' key v t).2 (get_shard_for_key key) key
      = some ⟨v, r.created_at, t⟩ := by
  have hat : ∀ (d : ShardMap) (w : String) (n : Int),
      (write_record d key w n).2 (get_shard_for_key key) key =
        match d (get_shard_for_key key) key with
        | none => some ⟨w, n, n⟩
        | some s => some ⟨w, s.created_at, n⟩ := by
    intro d w n
    cases h : d (get_shard_for_key key) key <;>
      simp [write_record, records_upsert, h, StrMap.set]
  have hw1 : (write_record db key v1 t1).2 (get_shard_for_key key) key
      = some ⟨v1, t1, t1⟩ := by
    rw [hat, h0]
  have hw2 : (write_record (write_record db key v1 t1).2 key v2 t2).2
      (get_shard_for_key key) key = some ⟨v2, t1, t2⟩ := by
    rw [hat, hw1]
  refine ⟨rfl, rfl, ?_, hw1, hw2, ht, ?_⟩
  · simp [read_record, hw2]
  · rw [hat, hr]

/-- Witness for write_read_upsert: key alpha written as v1 at time 10 and v2
at time 11 into an initially empty shard map, and a direct upsert over an
existing record. -/
theorem write_read_upsert_witness :
    (((fun _ => StrMap.empty : ShardMap) (get_shard_for_key "alpha") "alpha" = none) ∧
      (10 : Int) < 11 ∧
      ((fun _ => fun x => if x = "alpha" then some ⟨"v0", 3, 4⟩ else none : ShardMap)
        (get_shard_for_key "alpha") "alpha" = some ⟨"v0", 3, 4⟩)) ∧
    ((write_record (fun _ => StrMap.empty : ShardMap) "alpha" "v1" 10).1
        = get_shard_for_key "alpha" ∧
      (write_record (write_record (fun _ => StrMap.empty : ShardMap) "alpha" "v1" 10).2
          "alpha" "v2" 11).1 = get_shard_for_key "alpha" ∧
      read_record (write_record
          (write_record (fun _ => StrMap.empty : ShardMap) "alpha" "v1" 10).2
          "alpha" "v2" 11).2 (get_shard_for_key "alpha") "alpha" = some "v2" ∧
      (write_record (fun _ => StrMap.empty : ShardMap) "alpha" "v1" 10).2
        (get_shard_for_key "alpha") "alpha" = some ⟨"v1", 10, 10⟩ ∧
      (write_record (write_record (fun _ => StrMap.empty : ShardMap) "alpha" "v1" 10).2
          "alpha" "v2" 11).2 (get_shard_for_key "alpha") "alpha" = some ⟨"v2", 10, 11⟩ ∧
      (10 : Int) < 11 ∧
      (write_record
          (fun _ => fun x => if x = "alpha" then some ⟨"v0", 3, 4⟩ else none : ShardMap)
          "alpha" "v5" 12).2 (get_shard_for_key "alpha") "alpha"
        = some ⟨"v5", 3, 12⟩) :=
  ⟨⟨rfl, by decide, rfl⟩,
    write_read_upsert (fun _ => StrMap.empty) "alpha" "v1" "v2" 10 11
      (fun _ => fun x => if x = "alpha" then some ⟨"v0", 3, 4⟩ else none)
      "v5" 12 ⟨"v0", 3, 4⟩ rfl (by decide) rfl⟩

/-- C6 counterexample: the key k has the value "" present only in L2, yet
cache_get reports a plain miss -- (none, none), not a value tagged L2 -- and
nothing is promoted into L1, because the L2 hit test `if value:` is a Python
truthiness check that an empty string fails. -/
theorem cache_empty_value_not_promoted :
    (cache_get ⟨StrMap.empty, StrMap.empty.set (cache_key "k") "",
        CircuitBreaker.mk0 "cache_l2"⟩ true 0 "k").1 = (none, none) ∧
    (cache_get ⟨StrMap.empty, StrMap.empty.set (cache_key "k") "",
        CircuitBreaker.mk0 "cache_l2"⟩ true 0 "k").2.l1 (cache_key "k") = none := by
  refine ⟨by decide, by decide⟩

/-- C6 (amended): for every key whose non-empty value is present only in the
L2 tier (and whose L2 breaker is closed), lookup returns the value tagged L2
and writes it into L1 before returning, so an immediately subsequent lookup
returns the same value tagged L1; the promoting lookup leaves L2 unchanged,
and an L1 hit returns the state untouched, so promotion only ever flows from
L2 into L1.  An empty-string L2 value, however, fails the truthiness hit test
and is reported as a miss without promotion. -/
theorem cache_promotion_amended (st st' : CacheState) (key v w : String)
    (now now2 : Int)
    (h1 : st.l1 (cache_key key) = none)
    (h2 : st.l2 (cache_key key) = some v)
    (hv : v ≠ "")
    (hcb : st.cb2.state = CircuitState.closed)
    (hl1 : st'.l1 (cache_key key) = some w) :
    (cache_get st true now key).1 = (some v, some CacheLevel.L2) ∧
    (cache_get st true now key).2.l1 (cache_key key) = some v ∧
    (cache_get (cache_get st true now key).2 true now2 key).1
      = (some v, some CacheLevel.L1) ∧
    (cache_get st true now key).2.l2 = st.l2 ∧
    cache_get st' true now2 key = ((some w, some CacheLevel.L1), st') := by
  have hres := cache_get_l2_hit st now key v h1 h2 hv hcb
  have hpl1 : (cache_get st true now key).2.l1 (cache_key key) = some v := by
    rw [hres]
    exact StrMap.set_self _ _ _
  refine ⟨by rw [hres], hpl1, ?_, by rw [hres], cache_get_l1_hit st' true now2 key w hl1⟩
  rw [cache_get_l1_hit _ true now2 key v hpl1]

/-- Witness for cache_promotion_amended: value v only in L2, then an
independent state with w cached in L1. -/
theorem cache_promotion_amended_witness :
    ((StrMap.empty : StrMap String) (cache_key "k") = none ∧
      (StrMap.empty.set (cache_key "k") "v" : StrMap String) (cache_key "k") = some "v" ∧
      "v" ≠ "" ∧
      (CircuitBreaker.mk0 "cache_l2").state = CircuitState.closed ∧
      (StrMap.empty.set (cache_key "k") "w" : StrMap String) (cache_key "k") = some "w") ∧
    ((cache_get ⟨StrMap.empty, StrMap.empty.set (cache_key "k") "v",
          CircuitBreaker.mk0 "cache_l2"⟩ true 0 "k").1 = (some "v", some CacheLevel.L2) ∧
      (cache_get ⟨StrMap.empty, StrMap.empty.set (cache_key "k") "v",
          CircuitBreaker.mk0 "cache_l2"⟩ true 0 "k").2.l1 (cache_key "k") = some "v" ∧
      (cache_get (cache_get ⟨StrMap.empty, StrMap.empty.set (cache_key "k") "v",
          CircuitBreaker.mk0 "cache_l2"⟩ true 0 "k").2 true 1 "k").1
        = (some "v", some CacheLevel.L1) ∧
      (cache_get ⟨StrMap.empty, StrMap.empty.set (cache_key "k") "v",
          CircuitBreaker.mk0 "cache_l2"⟩ true 0 "k").2.l2
        = StrMap.empty.set (cache_key "k") "v" ∧
      cache_get ⟨StrMap.empty.set (cache_key "k") "w", StrMap.empty,
          CircuitBreaker.mk0 "cache_l2"⟩ true 1 "k"
        = ((some "w", some CacheLevel.L1),
           ⟨StrMap.empty.set (cache_key "k") "w", StrMap.empty,
            CircuitBreaker.mk0 "cache_l2"⟩)) :=
  ⟨⟨rfl, by simp [StrMap.set], by decide, rfl, by simp [StrMap.set]⟩,
    cache_promotion_amended
      ⟨StrMap.empty, StrMap.empty.set (cache_key "k") "v", CircuitBreaker.mk0 "cache_l2"⟩
      ⟨StrMap.empty.set (cache_key "k") "w", StrMap.empty, CircuitBreaker.mk0 "cache_l2"⟩
      "k" "v" "w" 0 1 rfl (by simp [StrMap.set]) (by decide) rfl (by simp [StrMap.set])⟩

theorem l9_repl_foldl (region_ok : String → Bool) (key value : String) :
    ∀ (ts : List String) (acc : List String) (st : RegionState),
      (ts.foldl
          (fun acc r =>
            if region_ok r then (acc.1 ++ [regionName r], l9_write_record acc.2 r key value)
            else acc)
          (acc, st)).1
        = acc ++ (ts.filter (fun r => region_ok r)).map regionName ∧
      (ts.foldl
          (fun acc r =>
            if region_ok r then (acc.1 ++ [regionName r], l9_write_record acc.2 r key value)
            else acc)
          (acc, st)).2
        = ts.foldl
            (fun s r => if region_ok r then l9_write_record s r key value else s) st
  | [], acc, st => by simp
  | t :: ts, acc, st => by
    cases h : region_ok t
    · have ih := l9_repl_foldl region_ok key value ts acc st
      simp only [List.foldl_cons, h]
      simp only [Bool.false_eq_true, if_false]
      refine ⟨?_, ih.2⟩
      rw [ih.1]
      simp [h]
    · have ih := l9_repl_foldl region_ok key value ts (acc ++ [regionName t])
        (l9_write_record st t key value)
      simp only [List.foldl_cons, h, if_true]
      refine ⟨?_, ih.2⟩
      rw [ih.1]
      simp [h]

theorem l9_fold_stores_notmem (region_ok : String → Bool) (key value r : String) :
    ∀ (ts : List String) (st : RegionState), r ∉ ts →
      (ts.foldl (fun s x => if region_ok x then l9_write_record s x key value else s)
        st).stores r = st.stores r
  | [], st, _ => rfl
  | t :: ts, st, h => by
    have hne : r ≠ t := fun he => h (he ▸ List.mem_cons_self t ts)
    have hnm : r ∉ ts := fun hm => h (List.mem_cons_of_mem t hm)
    simp only [List.foldl_cons]
    rw [l9_fold_stores_notmem region_ok key value r ts _ hnm]
    cases hok : region_ok t
    · simp [hok]
    · simp [hok, l9_write_record, hne]

theorem l9_fold_stores_notok (region_ok : String → Bool) (key value r : String)
    (hok : region_ok r = false) :
    ∀ (ts : List String) (st : RegionState),
      (ts.foldl (fun s x => if region_ok x then l9_write_record s x key value else s)
        st).stores r = st.stores r
  | [], st => rfl
  | t :: ts, st => by
    simp only [List.foldl_cons]
    rw [l9_fold_stores_notok region_ok key value r hok ts _]
    cases h : region_ok t
    · simp [h]
    · have hne : r ≠ t := by
        intro he
        rw [he, h] at hok
        cases hok
      simp [h, l9_write_record, hne]

theorem l9_fold_stores_mem_ok (region_ok : String → Bool) (key value r : String)
    (hok : region_ok r = true) :
    ∀ (ts : List String) (st : RegionState), r ∈ ts →
      (ts.foldl (fun s x => if region_ok x then l9_write_record s x key value else s)
        st).stores r key = some value
  | [], _, h => absurd h (List.not_mem_nil r)
  | t :: ts, st, h => by
    by_cases hmem : r ∈ ts
    · simp only [List.foldl_cons]
      exact l9_fold_stores_mem_ok region_ok key value r hok ts _ hmem
    · have ht : r = t := by
        rcases List.mem_cons.mp h with h1 | h1
        · exact h1
        · exact absurd h1 hmem
      subst ht
      simp only [List.foldl_cons, hok, if_true]
      rw [l9_fold_stores_notmem region_ok key value r ts _ hmem]
      simp [l9_write_record, StrMap.set]

/-- C7: with replication enabled, once the primary regional write succeeds
the response reports success with replicated_to listing exactly the fan-out
targets whose write succeeded; each target is guarded independently, so a
successful target r1 holds the written value even if some other target r2
failed (the failure neither aborts the remaining writes nor the response),
and the failed target r2 is left untouched. -/
theorem replication_fanout (region_ok : String → Bool) (st : RegionState)
    (x_region : Option String) (key value r1 r2 : String)
    (hp : region_ok (get_region_from_header x_region) = true)
    (hr1 : r1 ∈ get_replication_regions (get_region_from_header x_region))
    (hok1 : region_ok r1 = true)
    (hr2 : r2 ∈ get_replication_regions (get_region_from_header x_region))
    (hok2 : region_ok r2 = false) :
    (write_data true region_ok st x_region key value).1 =
      some ⟨true, key, regionName (get_region_from_header x_region),
        ((get_replication_regions (get_region_from_header x_region)).filter
          (fun r => region_ok r)).map regionName⟩ ∧
    (write_data true region_ok st x_region key value).2.stores
        (get_region_from_header x_region) key = some value ∧
    (write_data true region_ok st x_region key value).2.stores r1 key = some value ∧
    (write_data true region_ok st x_region key value).2.stores r2
      = st.stores r2 := by
  have hfold := l9_repl_foldl region_ok key value
    (get_replication_regions (get_region_from_header x_region)) []
    (l9_write_record st (get_region_from_header x_region) key value)
  have hw : write_data true region_ok st x_region key value =
      ((get_replication_regions (get_region_from_header x_region)).foldl
          (fun acc r =>
            if region_ok r then (acc.1 ++ [regionName r], l9_write_record acc.2 r key value)
            else acc)
          ([], l9_write_record st (get_region_from_header x_region) key value)
        |> fun rep => (some ⟨true, key, regionName (get_region_from_header x_region), rep.1⟩,
             rep.2)) := by
    simp [write_data, get_write_region, hp]
  have hprim_notmem : (get_region_from_header x_region)
      ∉ get_replication_regions (get_region_from_header x_region) := by
    intro hmem
    have := List.of_mem_filter hmem
    simp at this
  have hr2ne : r2 ≠ (get_region_from_header x_region) := by
    have := List.of_mem_filter hr2
    simpa using this
  rw [hw]
  refine ⟨?_, ?_, ?_, ?_⟩
  · simp only [hfold.1]
    simp
  · simp only [hfold.2]
    rw [l9_fold_stores_notmem region_ok key value _ _ _ hprim_notmem]
    simp [l9_write_record, StrMap.set]
  · simp only [hfold.2]
    exact l9_fold_stores_mem_ok region_ok key value r1 hok1 _ _ hr1
  · simp only [hfold.2]
    rw [l9_fold_stores_notok region_ok key value r2 hok2]
    simp [l9_write_record, hr2ne]

/-- Witness for replication_fanout: primary us-east, replication to asia-pac
succeeds, replication to eu-west fails. -/
theorem replication_fanout_witness :
    ((fun r => r != "eu-west") (get_region_from_header (some "us-east")) = true ∧
      "asia-pac" ∈ get_replication_regions (get_region_from_header (some "us-east")) ∧
      (fun r => r != "eu-west") "asia-pac" = true ∧
      "eu-west" ∈ get_replication_regions (get_region_from_header (some "us-east")) ∧
      (fun r => r != "eu-west") "eu-west" = false) ∧
    ((write_data true (fun r => r != "eu-west")
          ⟨fun _ => StrMap.empty, fun _ => StrMap.empty⟩
          (some "us-east") "beta" "v").1 =
        some ⟨true, "beta", regionName (get_region_from_header (some "us-east")),
          ((get_replication_regions (get_region_from_header (some "us-east"))).filter
            (fun r => (fun r => r != "eu-west") r)).map regionName⟩ ∧
      (write_data true (fun r => r != "eu-west")
          ⟨fun _ => StrMap.empty, fun _ => StrMap.empty⟩
          (some "us-east") "beta" "v").2.stores
        (get_region_from_header (some "us-east")) "beta" = some "v" ∧
      (write_data true (fun r => r != "eu-west")
          ⟨fun _ => StrMap.empty, fun _ => StrMap.empty⟩
          (some "us-east") "beta" "v").2.stores "asia-pac" "beta" = some "v" ∧
      (write_data true (fun r => r != "eu-west")
          ⟨fun _ => StrMap.empty, fun _ => StrMap.empty⟩
          (some "us-east") "beta" "v").2.stores "eu-west"
        = (⟨fun _ => StrMap.empty, fun _ => StrMap.empty⟩ : RegionState).stores
            "eu-west") :=
  ⟨⟨by decide, by decide, by decide, by decide, by decide⟩,
    replication_fanout (fun r => r != "eu-west")
      ⟨fun _ => StrMap.empty, fun _ => StrMap.empty⟩ (some "us-east") "beta" "v"
      "asia-pac" "eu-west" (by decide) (by decide) (by decide) (by decide) (by decide)⟩

/-- C4 counterexample: on a fresh system, after write(alpha, v1) the
immediate read is already an L1 cache hit (not a cache-miss read served by
the partition), and after the second write(alpha, v2) the next read returns
v2 again as an L1 cache hit with no shard in the response -- not
source=partition -- because the write path re-populates the cache
(cache_delete then cache_set) instead of leaving it invalidated. -/
theorem facade_write_then_read_hits_cache :
    (let sys0 : SysState :=
      ⟨⟨StrMap.empty, StrMap.empty, CircuitBreaker.mk0 "cache_l2"⟩,
       fun _ => StrMap.empty⟩
     let s1 := (facade_write sys0 true true 0 "alpha" "v1").2
     let r1 := facade_read s1 true true 1 "alpha"
     let s2 := (facade_write r1.2 true true 3 "alpha" "v2").2
     let r3 := facade_read s2 true true 4 "alpha"
     r1.1 = Except.ok ⟨true, "alpha", some "v1", true, some CacheLevel.L1, none, none⟩ ∧
     r3.1 = Except.ok ⟨true, "alpha", some "v2", true, some CacheLevel.L1, none, none⟩) := by
  refine ⟨by decide, by decide⟩

/-- C4 (amended): writes are write-through: after write(k, v1) a read
returns v1 as an L1 cache hit, a second read does the same, and after
write(k, v2) the next read returns v2 again from the L1 cache (the write
invalidates and immediately re-populates the entry); a read is served by the
partition -- source the routed shard, cache_hit false -- exactly when the
cache holds no entry for k (here: after TTL expiry of both tiers), and such
a read returns the latest value v2 and re-populates L1 with it. -/
theorem facade_write_read_amended (sys : SysState) (key v1 v2 : String)
    (t0 t1 t2 t3 t4 t5 : Int) (hv1 : v1 ≠ "") (hv2 : v2 ≠ "")
    (hcb : sys.cache.cb2.state = CircuitState.closed) :
    (let s1 := (facade_write sys true true t0 key v1).2
     let r1 := facade_read s1 true true t1 key
     let r2 := facade_read r1.2 true true t2 key
     let w2 := facade_write r2.2 true true t3 key v2
     let r3 := facade_read w2.2 true true t4 key
     let sx : SysState := ⟨expire_entry r3.2.cache key, r3.2.db⟩
     let r4 := facade_read sx true true t5 key
     r1.1 = Except.ok ⟨true, key, some v1, true, some CacheLevel.L1, none, none⟩ ∧
     r2.1 = Except.ok ⟨true, key, some v1, true, some CacheLevel.L1, none, none⟩ ∧
     r3.1 = Except.ok ⟨true, key, some v2, true, some CacheLevel.L1, none, none⟩ ∧
     r4.1 = Except.ok ⟨true, key, some v2, false, none,
       some (get_shard_for_key key), none⟩ ∧
     r4.2.cache.l1 (cache_key key) = some v2) := by
  have hW1 := facade_write_healthy sys t0 key v1 hcb
  have hcb1 : sys.cache.cb2.on_success.state = CircuitState.closed :=
    CircuitBreaker.on_success_state_closed _ hcb
  set c1 : CacheState :=
    ⟨(sys.cache.l1.del (cache_key key)).set (cache_key key) v1,
     (sys.cache.l2.del (cache_key key)).set (cache_key key) v1,
     sys.cache.cb2.on_success⟩ with hc1
  set db1 : ShardMap := (write_record sys.db key v1 t0).2 with hdb1
  have hl1c1 : c1.l1 (cache_key key) = some v1 := StrMap.set_self _ _ _
  have hR1 := facade_read_l1_hit (⟨c1, db1⟩ : SysState) t1 key v1 hl1c1 hv1
  have hR2 := facade_read_l1_hit (⟨c1, db1⟩ : SysState) t2 key v1 hl1c1 hv1
  have hW2 := facade_write_healthy (⟨c1, db1⟩ : SysState) t3 key v2 hcb1
  have hcb2 : sys.cache.cb2.on_success.on_success.state = CircuitState.closed :=
    CircuitBreaker.on_success_state_closed _ hcb1
  set c2 : CacheState :=
    ⟨(c1.l1.del (cache_key key)).set (cache_key key) v2,
     (c1.l2.del (cache_key key)).set (cache_key key) v2,
     sys.cache.cb2.on_success.on_success⟩ with hc2
  set db2 : ShardMap := (write_record db1 key v2 t3).2 with hdb2
  have hl1c2 : c2.l1 (cache_key key) = some v2 := StrMap.set_self _ _ _
  have hR3 := facade_read_l1_hit (⟨c2, db2⟩ : SysState) t4 key v2 hl1c2 hv2
  have hex : expire_entry c2 key =
      ⟨c2.l1.del (cache_key key), c2.l2.del (cache_key key),
       sys.cache.cb2.on_success.on_success⟩ := rfl
  have hdb1v := write_record_at sys.db key v1 t0
  rw [← hdb1] at hdb1v
  have hdbv := write_record_at db1 key v2 t3
  rw [← hdb2] at hdbv
  simp only [hW1, hR1, hR2, hW2, hR3]
  refine ⟨trivial, trivial, trivial, ?_⟩
  cases h0 : sys.db (get_shard_for_key key) key with
  | none =>
    simp only [h0] at hdb1v
    simp only [hdb1v] at hdbv
    have hR4 := facade_read_db_hit
      (⟨expire_entry c2 key, db2⟩ : SysState) t5 key ⟨v2, t0, t3⟩
      (by rw [hex]; exact StrMap.del_self _ _)
      (by rw [hex]; exact StrMap.del_self _ _)
      (by rw [hex]; exact hcb2)
      hdbv hv2
    rw [hR4]
    exact ⟨rfl, StrMap.set_self _ _ _⟩
  | some s =>
    simp only [h0] at hdb1v
    simp only [hdb1v] at hdbv
    have hR4 := facade_read_db_hit
      (⟨expire_entry c2 key, db2⟩ : SysState) t5 key ⟨v2, s.created_at, t3⟩
      (by rw [hex]; exact StrMap.del_self _ _)
      (by rw [hex]; exact StrMap.del_self _ _)
      (by rw [hex]; exact hcb2)
      hdbv hv2
    rw [hR4]
    exact ⟨rfl, StrMap.set_self _ _ _⟩

/-- Witness for facade_write_read_amended: key alpha, values v1 and v2, on a
fresh system. -/
theorem facade_write_read_amended_witness :
    (("v1" : String) ≠ "" ∧ ("v2" : String) ≠ "" ∧
      (⟨⟨StrMap.empty, StrMap.empty, CircuitBreaker.mk0 "cache_l2"⟩,
        fun _ => StrMap.empty⟩ : SysState).cache.cb2.state = CircuitState.closed) ∧
    (let sys : SysState :=
      ⟨⟨StrMap.empty, StrMap.empty, CircuitBreaker.mk0 "cache_l2"⟩,
       fun _ => StrMap.empty⟩
     let s1 := (facade_write sys true true 0 "alpha" "v1").2
     let r1 := facade_read s1 true true 1 "alpha"
     let r2 := facade_read r1.2 true true 2 "alpha"
     let w2 := facade_write r2.2 true true 3 "alpha" "v2"
     let r3 := facade_read w2.2 true true 4 "alpha"
     let sx : SysState := ⟨expire_entry r3.2.cache "alpha", r3.2.db⟩
     let r4 := facade_read sx true true 5 "alpha"
     r1.1 = Except.ok ⟨true, "alpha", some "v1", true, some CacheLevel.L1, none, none⟩ ∧
     r2.1 = Except.ok ⟨true, "alpha", some "v1", true, some CacheLevel.L1, none, none⟩ ∧
     r3.1 = Except.ok ⟨true, "alpha", some "v2", true, some CacheLevel.L1, none, none⟩ ∧
     r4.1 = Except.ok ⟨true, "alpha", some "v2", false, none,
       some (get_shard_for_key "alpha"), none⟩ ∧
     r4.2.cache.l1 (cache_key "alpha") = some "v2") :=
  ⟨⟨by decide, by decide, rfl⟩,
    facade_write_read_amended
      ⟨⟨StrMap.empty, StrMap.empty, CircuitBreaker.mk0 "cache_l2"⟩,
       fun _ => StrMap.empty⟩
      "alpha" "v1" "v2" 0 1 2 3 4 5 (by decide) (by decide) rfl⟩

/-- C10 counterexample: for a key whose empty-string value is cached in L1,
cache_get does not report a miss: the L1 hit test is a membership check, so
it returns the hit tuple (some "", L1).  The claim's "every hit test is a
truthiness check" fails for the L1 tier. -/
theorem cache_empty_value_l1_hit_tuple :
    (cache_get ⟨StrMap.empty.set (cache_key "k") "", StrMap.empty,
        CircuitBreaker.mk0 "cache_l2"⟩ true 0 "k").1
      = (some "", some CacheLevel.L1) ∧
    (cache_get ⟨StrMap.empty.set (cache_key "k") "", StrMap.empty,
        CircuitBreaker.mk0 "cache_l2"⟩ true 0 "k").1
      ≠ ((none : Option String), (none : Option CacheLevel)) := by
  refine ⟨by decide, by decide⟩

/-- C10 (amended): a stored record whose value is the empty string is
indistinguishable from an absent key at the facade read interface: the read
returns the not-found response (success false, "Key not found") rather than
the empty value, whether the empty value is uncached or cached in either
tier.  The L2 hit test is a truthiness check, so an L2-cached empty value is
reported by cache_get as a plain miss; the L1 hit test is a membership
check, so an L1-cached empty value comes back from cache_get as an L1 hit
tuple carrying "", which the facade's own truthiness test then treats as a
miss. -/
theorem empty_value_read_amended (sys : SysState) (key : String) (now : Int)
    (r : DbRecord)
    (hdb : sys.db (get_shard_for_key key) key = some r)
    (hr : r.value = "")
    (hcb : sys.cache.cb2.state = CircuitState.closed)
    (hl1 : sys.cache.l1 (cache_key key) = none ∨
      sys.cache.l1 (cache_key key) = some "")
    (hl2 : sys.cache.l2 (cache_key key) = none ∨
      sys.cache.l2 (cache_key key) = some "") :
    (facade_read sys true true now key).1 =
      Except.ok ⟨false, key, none, false, none, none, some "Key not found"⟩ ∧
    (cache_get sys.cache true now key).1 =
      (if sys.cache.l1 (cache_key key) = some ""
       then (some "", some CacheLevel.L1)
       else ((none : Option String), (none : Option CacheLevel))) := by
  rcases hl1 with hl1 | hl1
  · have hif : (sys.cache.l1 (cache_key key) = some "") = False := by
      simp [hl1]
    rcases hl2 with hl2 | hl2
    · have hg := cache_get_l2_none sys.cache now key hl1 hl2 hcb
      constructor
      · simp [facade_read, hg, truthy, read_record, hdb, hr]
      · rw [hg]
        simp [hif]
    · have hg := cache_get_l2_empty sys.cache now key hl1 hl2 hcb
      constructor
      · simp [facade_read, hg, truthy, read_record, hdb, hr]
      · rw [hg]
        simp [hif]
  · have hg := cache_get_l1_hit sys.cache true now key "" hl1
    constructor
    · simp [facade_read, hg, truthy, read_record, hdb, hr]
    · rw [hg]
      simp [hl1]

/-- Witness for empty_value_read_amended: key k stored with value "" on its
shard and also cached as "" in L1. -/
theorem empty_value_read_amended_witness :
    (((fun _ => StrMap.empty.set "k" ⟨"", 0, 0⟩ : ShardMap)
        (get_shard_for_key "k") "k" = some ⟨"", 0, 0⟩) ∧
      (⟨"", 0, 0⟩ : DbRecord).value = "" ∧
      (CircuitBreaker.mk0 "cache_l2").state = CircuitState.closed ∧
      ((StrMap.empty.set (cache_key "k") "" : StrMap String) (cache_key "k") = none ∨
        (StrMap.empty.set (cache_key "k") "" : StrMap String) (cache_key "k") = some "") ∧
      ((StrMap.empty : StrMap String) (cache_key "k") = none ∨
        (StrMap.empty : StrMap String) (cache_key "k") = some "")) ∧
    ((facade_read
        ⟨⟨StrMap.empty.set (cache_key "k") "", StrMap.empty,
          CircuitBreaker.mk0 "cache_l2"⟩,
         fun _ => StrMap.empty.set "k" ⟨"", 0, 0⟩⟩ true true 7 "k").1 =
      Except.ok ⟨false, "k", none, false, none, none, some "Key not found"⟩ ∧
    (cache_get ⟨StrMap.empty.set (cache_key "k") "", StrMap.empty,
        CircuitBreaker.mk0 "cache_l2"⟩ true 7 "k").1 =
      (if (StrMap.empty.set (cache_key "k") "" : StrMap String) (cache_key "k") = some ""
       then (some "", some CacheLevel.L1)
       else ((none : Option String), (none : Option CacheLevel)))) :=
  ⟨⟨rfl, rfl, rfl, Or.inr (by simp [StrMap.set]), Or.inl rfl⟩,
    empty_value_read_amended
      ⟨⟨StrMap.empty.set (cache_key "k") "", StrMap.empty,
        CircuitBreaker.mk0 "cache_l2"⟩,
       fun _ => StrMap.empty.set "k" ⟨"", 0, 0⟩⟩
      "k" 7 ⟨"", 0, 0⟩ rfl rfl rfl (Or.inr (by simp [StrMap.set]))
      (Or.inl rfl)⟩

/-- C8 counterexample: a queued write is removed from the queue by
dequeue_writes before being applied; when the batch application then fails
(db_ok = false), the item is neither durably applied nor still present in the
queue, contradicting the claimed invariant. -/
theorem worker_loses_dequeued_batch :
    (worker_step true false 10 0 [⟨"k", "v", "t"⟩] (StrMap.empty : StrMap DbRecord)).1
        = [] ∧
    (worker_step true false 10 0 [⟨"k", "v", "t"⟩] (StrMap.empty : StrMap DbRecord)).2
        "k" = none := by
  refine ⟨by decide, by decide⟩

/-- C8 (amended): a write accepted by enqueue (reported queued = true) is
appended to the queue; the worker removes up to batch_size items at dequeue
time, before applying them; the batch is applied durably only if the whole
batch application succeeds, and a failed batch is logged and dropped while
the worker step still completes (the loop continues polling); items not yet
dequeued remain in the queue, and when the queue store is unreachable nothing
is removed. -/
theorem worker_batch_amended (q : List QueuedWrite) (w : QueuedWrite)
    (db : StrMap DbRecord) (db_ok : Bool) (batch_size : Nat) (now : Int) :
    enqueue_write true q w = (true, q ++ [w]) ∧
    worker_step true db_ok batch_size now q db =
      (q.drop batch_size,
       if db_ok then
        (q.take batch_size).foldl (fun tbl x => records_upsert tbl x.key x.value now) db
       else db) ∧
    dequeue_writes false batch_size q = ([], q) := by
  refine ⟨rfl, ?_, rfl⟩
  by_cases h : (q.take batch_size).isEmpty
  · rw [List.isEmpty_iff] at h
    simp [worker_step, dequeue_writes, h, process_writes]
  · simp [worker_step, dequeue_writes, h, process_writes]

end KV
